import Mathlib

/-!
Shallow embedding of `tabor_settings_fix.py`: the `SettingBytes` property
record codec and the `locate_and_modify_player_settings` save-buffer patcher.

Byte buffers are modelled as `List Nat` (each element intended < 256).
Python exceptions are modelled by `Except PyError`.  The Python `bytes(list)`
constructor, which raises `ValueError` when an element is outside
`range(0, 256)`, is modelled by `pybytes`.
-/

deriving instance DecidableEq for Except

/-- Python exceptions that the modelled code can raise:
`TypeError` from `_compute_value`'s else-branch, `ValueError` from a
`bytes([...])` constructor given an element outside `range(0, 256)`, and
`KeyError` from the `DEFAULT_SETTINGS[key]` dictionary lookup. -/
inductive PyError where
  | typeError : PyError
  | valueError : PyError
  | keyError : String → PyError
deriving DecidableEq, Repr

/-- The shapes a requested setting's value can take, mirroring the dynamic
typing of the Python `value` argument: `bool`, `int`, `str`, `bytes`, or any
other shape (the unsupported case). -/
inductive PyValue where
  | bool : Bool → PyValue
  | int : Int → PyValue
  | str : String → PyValue
  | bytes : List Nat → PyValue
  | other : PyValue
deriving DecidableEq, Repr

/-- UTF-8 encoding of a single Unicode code point, as a list of byte values. -/
def utf8EncodeCharNat (c : Nat) : List Nat :=
  if c < 0x80 then [c]
  else if c < 0x800 then
    [0xC0 ||| (c >>> 6), 0x80 ||| (c &&& 0x3F)]
  else if c < 0x10000 then
    [0xE0 ||| (c >>> 12), 0x80 ||| ((c >>> 6) &&& 0x3F), 0x80 ||| (c &&& 0x3F)]
  else
    [0xF0 ||| (c >>> 18), 0x80 ||| ((c >>> 12) &&& 0x3F),
     0x80 ||| ((c >>> 6) &&& 0x3F), 0x80 ||| (c &&& 0x3F)]

/-- Python's `s.encode('utf-8')`: the UTF-8 byte sequence of a string. -/
def utf8Bytes (s : String) : List Nat :=
  (s.data.map (fun c => utf8EncodeCharNat c.toNat)).flatten

/-- Python's `bytes(l)` constructor on a list of integers: succeeds with the
byte sequence when every element is in `range(0, 256)`, otherwise raises
`ValueError`. -/
def pybytes (l : List Nat) : Except PyError (List Nat) :=
  if l.all (fun n => decide (n < 256)) then Except.ok l else Except.error .valueError

/-- The fields of a constructed `SettingBytes` object (tabor_settings_fix.py,
class `SettingBytes`): the null-terminated key and type-tag byte strings, the
computed value bytes, and the precomputed full record `bytes`. -/
structure SettingBytes where
  key : List Nat
  data_type : List Nat
  value : List Nat
  bytes : List Nat
deriving DecidableEq, Repr

/-- `SettingBytes._compute_value`: bool/int become `bytes([value])` (a single
byte, `ValueError` outside `range(0, 256)`; Python booleans coerce to 0/1),
str becomes its UTF-8 encoding, bytes pass through unchanged, and any other
shape raises `TypeError`. -/
def compute_value (v : PyValue) : Except PyError (List Nat) :=
  match v with
  | .bool b => Except.ok [if b then 1 else 0]
  | .int n => if 0 ≤ n ∧ n < 256 then Except.ok [n.toNat] else Except.error .valueError
  | .str s => Except.ok (utf8Bytes s)
  | .bytes bs => Except.ok bs
  | .other => Except.error .typeError

/-- `SettingBytes.__init__`: null-terminate the UTF-8 key and type tag, build
the two 4-byte length headers via `bytes([len, 0, 0, 0])` (in source order:
key header, then type header, then the value), and concatenate
header ++ key ++ type header ++ type ++ 8 zero bytes ++ value ++ [0]. -/
def mkSettingBytes (key : String) (data_type : String) (value : PyValue) :
    Except PyError SettingBytes :=
  let keyB := utf8Bytes key ++ [0]
  let typeB := utf8Bytes data_type ++ [0]
  let padding : List Nat := List.replicate 8 0
  match pybytes [keyB.length, 0, 0, 0] with
  | .error e => Except.error e
  | .ok header =>
    match pybytes [typeB.length, 0, 0, 0] with
    | .error e => Except.error e
    | .ok type_metadata =>
      match compute_value value with
      | .error e => Except.error e
      | .ok v =>
        Except.ok { key := keyB, data_type := typeB, value := v,
                    bytes := header ++ keyB ++ type_metadata ++ typeB ++
                             padding ++ v ++ [0] }

/-- The module-level `DEFAULT_SETTINGS` table, as an association list in
source order. -/
def DEFAULT_SETTINGS : List (String × Bool) :=
  [("bFullBodyIK", true), ("bHoldCrouchToOpenMenu", true),
   ("bUsingPhysicalGunstock", false)]

/-- Python's `DEFAULT_SETTINGS[key]`: the value when present, `KeyError`
otherwise. -/
def defaultLookup (key : String) : Except PyError Bool :=
  match DEFAULT_SETTINGS.find? (fun p => p.1 == key) with
  | some p => Except.ok p.2
  | none => Except.error (.keyError key)

/-- Python's `==` between a requested value and a boolean default:
booleans compare by value, integers compare numerically with the boolean's
0/1 coercion, and every other shape compares unequal to a boolean. -/
def pyEq (v : PyValue) (b : Bool) : Bool :=
  match v with
  | .bool b2 => b2 == b
  | .int n => n == (if b then (1 : Int) else 0)
  | _ => false

/-- Python's `data.find(pat)` on byte strings: the least index at which `pat`
occurs as a contiguous subsequence of `data`, or `-1` when it does not occur. -/
def bfind (data pat : List Nat) : Int :=
  match (List.range (data.length + 1)).find?
      (fun i => decide ((data.drop i).take pat.length = pat)) with
  | some i => (i : Int)
  | none => -1

/-- Python's `buf[i:i] = ins` slice-insertion on a bytearray (with a
non-negative index, which clamps to the end when past it). -/
def splice (buf : List Nat) (i : Nat) (ins : List Nat) : List Nat :=
  buf.take i ++ ins ++ buf.drop i

/-- One entry of the settings-request mapping: the `'type'` and `'value'`
fields of the per-key dictionary. -/
structure ValueData where
  type : String
  value : PyValue
deriving DecidableEq, Repr

/-- The anchor byte string `'BP_Ghosts_SettingsSave_C'.encode('utf-8') + b'\x00'`. -/
def data_anchor : List Nat := utf8Bytes "BP_Ghosts_SettingsSave_C" ++ [0]

/-- The per-setting loop of `locate_and_modify_player_settings`: searches the
ORIGINAL `data` for the null-terminated key, constructs the `SettingBytes`
record before any branching, and on the key-absent, value-differs-from-default
path splices the record into the working buffer at the fixed
`insertion_index`, setting `file_modified`. -/
def patchLoop (data : List Nat) (insertion_index : Nat) :
    List (String × ValueData) → List Nat → Bool →
    Except PyError (List Nat × Bool)
  | [], modified_data, file_modified => Except.ok (modified_data, file_modified)
  | (key, value_data) :: rest, modified_data, file_modified =>
    match mkSettingBytes key value_data.type value_data.value with
    | .error e => Except.error e
    | .ok setting_bytes =>
      if bfind data (utf8Bytes key ++ [0]) = -1 then
        match defaultLookup key with
        | .error e => Except.error e
        | .ok dflt =>
          if pyEq value_data.value dflt then
            patchLoop data insertion_index rest modified_data file_modified
          else
            patchLoop data insertion_index rest
              (splice modified_data insertion_index setting_bytes.bytes) true
      else
        patchLoop data insertion_index rest modified_data file_modified

/-- `locate_and_modify_player_settings(data, settings)`: compute the fixed
insertion index `data.find(anchor) + len(anchor)`, run the per-setting loop
starting from a copy of `data`, and return the modified buffer when
`file_modified`, else the `None` sentinel. -/
def locate_and_modify_player_settings (data : List Nat)
    (settings : List (String × ValueData)) : Except PyError (Option (List Nat)) :=
  let insertion_index := (bfind data data_anchor + (data_anchor.length : Int)).toNat
  match patchLoop data insertion_index settings data false with
  | .error e => Except.error e
  | .ok (modified_data, file_modified) =>
    Except.ok (if file_modified then some modified_data else none)

/-- Whether an `Except` computation succeeded. -/
def exceptOk {α : Type} : Except PyError α → Bool
  | .ok _ => true
  | .error _ => false

/-- Whether the requested value compares equal (in Python's sense) to the
`DEFAULT_SETTINGS` entry for `key`; false when `key` has no entry. -/
def isDefaultValue (key : String) (v : PyValue) : Bool :=
  match defaultLookup key with
  | .ok d => pyEq v d
  | .error _ => false

/-- When `bfind` reports an occurrence at `i`, the whole pattern fits inside
the data: `i + pat.length ≤ data.length`. -/
theorem bfind_le (data pat : List Nat) (i : Nat) (h : bfind data pat = (i : Int)) :
    i + pat.length ≤ data.length := by
  unfold bfind at h
  cases hf : (List.range (data.length + 1)).find?
      (fun j => decide ((data.drop j).take pat.length = pat)) with
  | none => simp only [hf] at h; omega
  | some j =>
    simp only [hf] at h
    have hj : j = i := by exact_mod_cast h
    have hp := List.find?_some hf
    have hjr : j < data.length + 1 := List.mem_range.mp (List.mem_of_find?_eq_some hf)
    have hpat : (data.drop j).take pat.length = pat := of_decide_eq_true hp
    have hlen : ((data.drop j).take pat.length).length = pat.length := by rw [hpat]
    simp only [List.length_take, List.length_drop] at hlen
    omega

/-- Splicing always grows the buffer by the length of the insertion. -/
theorem splice_length (buf ins : List Nat) (i : Nat) :
    (splice buf i ins).length = buf.length + ins.length := by
  simp only [splice, List.length_append, List.length_take, List.length_drop]
  omega

/-- When the splice index is inside the buffer, the inserted bytes appear in
the result exactly at that index. -/
theorem splice_drop_take (buf ins : List Nat) (i : Nat) (h : i ≤ buf.length) :
    ((splice buf i ins).drop i).take ins.length = ins := by
  unfold splice
  rw [List.append_assoc]
  generalize hA : buf.take i = A
  have h1 : A.length = i := by
    rw [← hA]
    simp only [List.length_take]
    omega
  rw [← h1, List.drop_left, List.take_left]

/-- Splicing a second time at the same in-bounds index stacks the new bytes
in front of the previously inserted ones. -/
theorem splice_splice (buf ins1 ins2 : List Nat) (i : Nat) (h : i ≤ buf.length) :
    splice (splice buf i ins1) i ins2 =
      buf.take i ++ ins2 ++ ins1 ++ buf.drop i := by
  simp only [splice, List.append_assoc]
  generalize hA : buf.take i = A
  have h1 : A.length = i := by
    rw [← hA]
    simp only [List.length_take]
    omega
  rw [← h1, List.drop_left, List.take_left]

/-- A settings entry whose record encodes and which either is found in the
data, or is absent with a value equal to its default, leaves the loop state
untouched; a whole request of such entries returns the buffer and flag
unchanged. -/
theorem patchLoop_noop (data : List Nat) (idx : Nat)
    (settings : List (String × ValueData)) (buf : List Nat) (m : Bool)
    (h : ∀ p ∈ settings, exceptOk (mkSettingBytes p.1 p.2.type p.2.value) = true ∧
         (bfind data (utf8Bytes p.1 ++ [0]) ≠ -1 ∨ isDefaultValue p.1 p.2.value = true)) :
    patchLoop data idx settings buf m = Except.ok (buf, m) := by
  induction settings with
  | nil => rfl
  | cons p rest ih =>
    obtain ⟨key, vd⟩ := p
    obtain ⟨hok, hcond⟩ := h (key, vd) (List.mem_cons_self _ _)
    have hrest := ih (fun q hq => h q (List.mem_cons_of_mem _ hq))
    cases hsb : mkSettingBytes key vd.type vd.value with
    | error e => rw [hsb] at hok; simp [exceptOk] at hok
    | ok sb =>
      simp only [patchLoop, hsb]
      by_cases hfind : bfind data (utf8Bytes key ++ [0]) = -1
      · rw [if_pos hfind]
        rcases hcond with hcond | hcond
        · exact absurd hfind hcond
        · unfold isDefaultValue at hcond
          cases hd : defaultLookup key with
          | error e => rw [hd] at hcond; simp at hcond
          | ok dflt =>
            rw [hd] at hcond
            simp only [hd]
            rw [if_pos hcond]
            exact hrest
      · rw [if_neg hfind]
        exact hrest

/-- When the anchor occurs, the code's insertion index
`(data.find(anchor) + len(anchor)).toNat` is the anchor position plus the
anchor length. -/
theorem insertion_index_of_found (data : List Nat) (h : 0 ≤ bfind data data_anchor) :
    (bfind data data_anchor + (data_anchor.length : Int)).toNat =
      (bfind data data_anchor).toNat + data_anchor.length := by
  omega

/-- When the anchor occurs, the insertion index lies inside the buffer. -/
theorem insertion_index_le (data : List Nat) (h : 0 ≤ bfind data data_anchor) :
    (bfind data data_anchor).toNat + data_anchor.length ≤ data.length :=
  bfind_le data data_anchor (bfind data data_anchor).toNat (Int.toNat_of_nonneg h).symm

/-- Loop step on an entry whose record fails to encode: the error propagates. -/
theorem patchLoop_err (data : List Nat) (idx : Nat) (key : String) (vd : ValueData)
    (rest : List (String × ValueData)) (buf : List Nat) (m : Bool) (e : PyError)
    (hsb : mkSettingBytes key vd.type vd.value = Except.error e) :
    patchLoop data idx ((key, vd) :: rest) buf m = Except.error e := by
  simp only [patchLoop, hsb]

/-- Loop step on an entry whose key occurs in the data: a no-op. -/
theorem patchLoop_found (data : List Nat) (idx : Nat) (key : String) (vd : ValueData)
    (sb : SettingBytes) (rest : List (String × ValueData)) (buf : List Nat) (m : Bool)
    (hsb : mkSettingBytes key vd.type vd.value = Except.ok sb)
    (hfound : bfind data (utf8Bytes key ++ [0]) ≠ -1) :
    patchLoop data idx ((key, vd) :: rest) buf m = patchLoop data idx rest buf m := by
  simp only [patchLoop, hsb]
  rw [if_neg hfound]

/-- Loop step on an absent key whose value equals its default: a no-op. -/
theorem patchLoop_default (data : List Nat) (idx : Nat) (key : String) (vd : ValueData)
    (sb : SettingBytes) (dflt : Bool) (rest : List (String × ValueData))
    (buf : List Nat) (m : Bool)
    (hsb : mkSettingBytes key vd.type vd.value = Except.ok sb)
    (habsent : bfind data (utf8Bytes key ++ [0]) = -1)
    (hd : defaultLookup key = Except.ok dflt)
    (heq : pyEq vd.value dflt = true) :
    patchLoop data idx ((key, vd) :: rest) buf m = patchLoop data idx rest buf m := by
  simp only [patchLoop, hsb]
  rw [if_pos habsent]
  simp only [hd]
  rw [if_pos heq]

/-- Loop step on an absent key whose value differs from its default: the
record is spliced in at the fixed insertion index and the flag is set. -/
theorem patchLoop_insert (data : List Nat) (idx : Nat) (key : String) (vd : ValueData)
    (sb : SettingBytes) (dflt : Bool) (rest : List (String × ValueData))
    (buf : List Nat) (m : Bool)
    (hsb : mkSettingBytes key vd.type vd.value = Except.ok sb)
    (habsent : bfind data (utf8Bytes key ++ [0]) = -1)
    (hd : defaultLookup key = Except.ok dflt)
    (hne : pyEq vd.value dflt = false) :
    patchLoop data idx ((key, vd) :: rest) buf m =
      patchLoop data idx rest (splice buf idx sb.bytes) true := by
  simp only [patchLoop, hsb]
  rw [if_pos habsent]
  simp only [hd, hne, Bool.false_eq_true, if_false]

/-- Loop step on an absent key that is missing from the defaults table: the
`KeyError` propagates. -/
theorem patchLoop_keyError (data : List Nat) (idx : Nat) (key : String) (vd : ValueData)
    (sb : SettingBytes) (rest : List (String × ValueData)) (buf : List Nat) (m : Bool)
    (e : PyError)
    (hsb : mkSettingBytes key vd.type vd.value = Except.ok sb)
    (habsent : bfind data (utf8Bytes key ++ [0]) = -1)
    (hd : defaultLookup key = Except.error e) :
    patchLoop data idx ((key, vd) :: rest) buf m = Except.error e := by
  simp only [patchLoop, hsb]
  rw [if_pos habsent]
  simp only [hd]

/-- A successful `pybytes` returns its input list unchanged. -/
theorem pybytes_ok (l out : List Nat) (h : pybytes l = Except.ok out) : out = l := by
  unfold pybytes at h
  split at h
  · injection h with h
    exact h.symm
  · cases h

/-- Inversion of a successful `SettingBytes` construction: the value bytes
come from `_compute_value` and the record bytes are the concatenation built
in `__init__`. -/
theorem mkSettingBytes_inv (key tt : String) (v : PyValue) (sb : SettingBytes)
    (h : mkSettingBytes key tt v = Except.ok sb) :
    compute_value v = Except.ok sb.value ∧
    sb.bytes = [(utf8Bytes key ++ [0]).length, 0, 0, 0] ++ (utf8Bytes key ++ [0]) ++
               [(utf8Bytes tt ++ [0]).length, 0, 0, 0] ++ (utf8Bytes tt ++ [0]) ++
               List.replicate 8 0 ++ sb.value ++ [0] := by
  unfold mkSettingBytes at h
  simp only [] at h
  cases h1 : pybytes [(utf8Bytes key ++ [0]).length, 0, 0, 0] with
  | error e => rw [h1] at h; exact Except.noConfusion h
  | ok header =>
    rw [h1] at h
    simp only [] at h
    cases h2 : pybytes [(utf8Bytes tt ++ [0]).length, 0, 0, 0] with
    | error e => rw [h2] at h; exact Except.noConfusion h
    | ok type_metadata =>
      rw [h2] at h
      simp only [] at h
      cases h3 : compute_value v with
      | error e => rw [h3] at h; exact Except.noConfusion h
      | ok vb =>
        rw [h3] at h
        simp only [] at h
        have hh := pybytes_ok _ _ h1
        have ht := pybytes_ok _ _ h2
        injection h with h
        subst h
        subst hh
        subst ht
        exact ⟨rfl, rfl⟩

/-- A length header for a small length encodes as itself. -/
theorem pybytes_header (L : Nat) (h : L < 256) :
    pybytes [L, 0, 0, 0] = Except.ok [L, 0, 0, 0] := by
  unfold pybytes
  have hcond : ([L, 0, 0, 0].all fun n => decide (n < 256)) = true := by
    simp only [List.all_cons, List.all_nil, Bool.and_true, Bool.and_eq_true,
      decide_eq_true_eq]
    omega
  rw [if_pos hcond]

/-- A length header for a length of 256 or more raises `ValueError`. -/
theorem pybytes_header_fail (L : Nat) (h : 256 ≤ L) :
    pybytes [L, 0, 0, 0] = Except.error PyError.valueError := by
  unfold pybytes
  have hcond : ¬ (([L, 0, 0, 0].all fun n => decide (n < 256)) = true) := by
    simp only [List.all_cons, List.all_nil, Bool.and_true, Bool.and_eq_true,
      decide_eq_true_eq]
    intro hc
    omega
  rw [if_neg hcond]

/-- An oversized null-terminated key makes `SettingBytes.__init__` raise
`ValueError` at the key length header. -/
theorem mkSettingBytes_keyTooLong (key tt : String) (v : PyValue)
    (h : 256 ≤ (utf8Bytes key ++ [0]).length) :
    mkSettingBytes key tt v = Except.error PyError.valueError := by
  unfold mkSettingBytes
  simp only []
  rw [pybytes_header_fail _ h]

/-- An oversized null-terminated type tag makes `SettingBytes.__init__` raise
`ValueError` at the type length header. -/
theorem mkSettingBytes_typeTooLong (key tt : String) (v : PyValue)
    (hk : (utf8Bytes key ++ [0]).length < 256)
    (h : 256 ≤ (utf8Bytes tt ++ [0]).length) :
    mkSettingBytes key tt v = Except.error PyError.valueError := by
  unfold mkSettingBytes
  simp only []
  rw [pybytes_header _ hk]
  simp only []
  rw [pybytes_header_fail _ h]

/-- An unsupported value shape (with well-sized key and type tag) makes
`SettingBytes.__init__` raise `TypeError` from `_compute_value`. -/
theorem mkSettingBytes_other (key tt : String)
    (hk : (utf8Bytes key ++ [0]).length < 256)
    (ht : (utf8Bytes tt ++ [0]).length < 256) :
    mkSettingBytes key tt PyValue.other = Except.error PyError.typeError := by
  unfold mkSettingBytes
  simp only []
  rw [pybytes_header _ hk]
  simp only []
  rw [pybytes_header _ ht]
  simp only []
  rfl

/-- A request whose first entry has an unsupported value shape makes the
whole patch call raise `TypeError`, whatever the buffer holds. -/
theorem locate_other_error (data : List Nat) (key tt : String)
    (rest : List (String × ValueData))
    (hk : (utf8Bytes key ++ [0]).length < 256)
    (ht : (utf8Bytes tt ++ [0]).length < 256) :
    locate_and_modify_player_settings data ((key, ⟨tt, PyValue.other⟩) :: rest) =
      Except.error PyError.typeError := by
  simp only [locate_and_modify_player_settings]
  rw [patchLoop_err data _ key ⟨tt, PyValue.other⟩ rest data false PyError.typeError
    (mkSettingBytes_other key tt hk ht)]

/-- Claim C1: for every key, type tag and supported value, the encoded record
is exactly keyLengthHeader (4 bytes, low byte = len(key)+1), the key, a NUL,
typeLengthHeader (4 bytes, low byte = len(typeTag)+1), the type tag, a NUL,
8 zero bytes, the value bytes, and a final NUL; in particular encoding
('bUsingPhysicalGunstock', 'BoolProperty', True) yields
17 00 00 00, 'bUsingPhysicalGunstock', 00, 0d 00 00 00, 'BoolProperty', 00,
eight zero bytes, 01, 00. -/
theorem C1_record_layout (key tt : String) (v : PyValue) (sb : SettingBytes)
    (h : mkSettingBytes key tt v = Except.ok sb) :
    (compute_value v = Except.ok sb.value ∧
     sb.bytes = [(utf8Bytes key).length + 1, 0, 0, 0] ++ (utf8Bytes key ++ [0]) ++
       [(utf8Bytes tt).length + 1, 0, 0, 0] ++ (utf8Bytes tt ++ [0]) ++
       List.replicate 8 0 ++ sb.value ++ [0]) ∧
    (mkSettingBytes "bUsingPhysicalGunstock" "BoolProperty" (PyValue.bool true)).map
        (fun r => r.bytes) =
      Except.ok ([23, 0, 0, 0] ++
        [98, 85, 115, 105, 110, 103, 80, 104, 121, 115, 105, 99, 97, 108, 71, 117,
         110, 115, 116, 111, 99, 107, 0] ++
        [13, 0, 0, 0] ++
        [66, 111, 111, 108, 80, 114, 111, 112, 101, 114, 116, 121, 0] ++
        [0, 0, 0, 0, 0, 0, 0, 0] ++ [1] ++ [0]) := by
  refine ⟨?_, by decide⟩
  obtain ⟨hv, hb⟩ := mkSettingBytes_inv key tt v sb h
  refine ⟨hv, ?_⟩
  rw [hb]
  simp [List.append_assoc]

/-- Witness for C1_record_layout at key 'k', type tag 'T', value True. -/
theorem C1_record_layout_witness :
    (compute_value (PyValue.bool true) =
        Except.ok (SettingBytes.mk [107, 0] [84, 0] [1]
          [2, 0, 0, 0, 107, 0, 2, 0, 0, 0, 84, 0, 0, 0, 0, 0, 0, 0, 0, 0, 1, 0]).value ∧
     (SettingBytes.mk [107, 0] [84, 0] [1]
          [2, 0, 0, 0, 107, 0, 2, 0, 0, 0, 84, 0, 0, 0, 0, 0, 0, 0, 0, 0, 1, 0]).bytes =
       [(utf8Bytes "k").length + 1, 0, 0, 0] ++ (utf8Bytes "k" ++ [0]) ++
       [(utf8Bytes "T").length + 1, 0, 0, 0] ++ (utf8Bytes "T" ++ [0]) ++
       List.replicate 8 0 ++
       (SettingBytes.mk [107, 0] [84, 0] [1]
          [2, 0, 0, 0, 107, 0, 2, 0, 0, 0, 84, 0, 0, 0, 0, 0, 0, 0, 0, 0, 1, 0]).value ++
       [0]) ∧
    (mkSettingBytes "bUsingPhysicalGunstock" "BoolProperty" (PyValue.bool true)).map
        (fun r => r.bytes) =
      Except.ok ([23, 0, 0, 0] ++
        [98, 85, 115, 105, 110, 103, 80, 104, 121, 115, 105, 99, 97, 108, 71, 117,
         110, 115, 116, 111, 99, 107, 0] ++
        [13, 0, 0, 0] ++
        [66, 111, 111, 108, 80, 114, 111, 112, 101, 114, 116, 121, 0] ++
        [0, 0, 0, 0, 0, 0, 0, 0] ++ [1] ++ [0]) :=
  C1_record_layout "k" "T" (PyValue.bool true)
    (SettingBytes.mk [107, 0] [84, 0] [1]
      [2, 0, 0, 0, 107, 0, 2, 0, 0, 0, 84, 0, 0, 0, 0, 0, 0, 0, 0, 0, 1, 0])
    (by decide)

set_option maxRecDepth 8192 in
/-- Claim C8 counterexample: a key of encoded length 256 (255 characters plus
the added terminator) does NOT make the codec succeed with a corrupted
single-byte header — the `bytes([len, 0, 0, 0])` constructor raises
`ValueError`; likewise an integer value of 256 makes the encoder fail with
`ValueError` rather than not fail. -/
theorem C8_oversize_counterexample :
    mkSettingBytes (String.mk (List.replicate 255 'a')) "BoolProperty"
        (PyValue.bool true) = Except.error PyError.valueError ∧
    compute_value (PyValue.int 256) = Except.error PyError.valueError := by
  constructor
  · decide
  · decide

/-- Claim C8 (amended): for a key or type tag whose encoded length including
the added null terminator is 256 or more, the codec does not silently write a
corrupted header — the `bytes([...])` constructor raises `ValueError` and the
whole encoding fails; likewise an integer value of 256 or more makes
`_compute_value` raise `ValueError`, so it is checked in-flow by the `bytes`
constructor and the encoder fails. -/
theorem C8_oversize_raises :
    (∀ key tt : String, ∀ v : PyValue, 256 ≤ (utf8Bytes key ++ [0]).length →
       mkSettingBytes key tt v = Except.error PyError.valueError) ∧
    (∀ key tt : String, ∀ v : PyValue, (utf8Bytes key ++ [0]).length < 256 →
       256 ≤ (utf8Bytes tt ++ [0]).length →
       mkSettingBytes key tt v = Except.error PyError.valueError) ∧
    (∀ n : Int, 256 ≤ n → compute_value (PyValue.int n) = Except.error PyError.valueError) := by
  refine ⟨?_, ?_, ?_⟩
  · intro key tt v h
    exact mkSettingBytes_keyTooLong key tt v h
  · intro key tt v hk h
    exact mkSettingBytes_typeTooLong key tt v hk h
  · intro n h
    simp only [compute_value]
    rw [if_neg (by omega)]

set_option maxRecDepth 8192 in
/-- Witness for C8_oversize_raises at a 255-character key and the value 300. -/
theorem C8_oversize_raises_witness :
    mkSettingBytes (String.mk (List.replicate 255 'a')) "B" (PyValue.bool true) =
      Except.error PyError.valueError ∧
    compute_value (PyValue.int 300) = Except.error PyError.valueError :=
  ⟨C8_oversize_raises.1 (String.mk (List.replicate 255 'a')) "B" (PyValue.bool true)
      (by decide),
   C8_oversize_raises.2.2 300 (by decide)⟩

/-- Claim C5: the value encoding emits a single byte equal to the integer
value for booleans (coerced 0/1) and small integers, the UTF-8 bytes verbatim
for strings, the bytes unchanged for byte sequences, and for any other value
shape raises the unsupported-value-type error, which aborts the whole patch
call with no partial buffer. -/
theorem C5_value_encoding :
    (∀ b : Bool, compute_value (PyValue.bool b) = Except.ok [if b then 1 else 0]) ∧
    (∀ n : Int, 0 ≤ n → n < 256 → compute_value (PyValue.int n) = Except.ok [n.toNat]) ∧
    (∀ s : String, compute_value (PyValue.str s) = Except.ok (utf8Bytes s)) ∧
    (∀ bs : List Nat, compute_value (PyValue.bytes bs) = Except.ok bs) ∧
    compute_value PyValue.other = Except.error PyError.typeError ∧
    (∀ data : List Nat, ∀ key tt : String, ∀ rest : List (String × ValueData),
       (utf8Bytes key ++ [0]).length < 256 → (utf8Bytes tt ++ [0]).length < 256 →
       locate_and_modify_player_settings data ((key, ⟨tt, PyValue.other⟩) :: rest) =
         Except.error PyError.typeError) := by
  refine ⟨fun b => rfl, ?_, fun s => rfl, fun bs => rfl, rfl, ?_⟩
  · intro n h1 h2
    simp only [compute_value]
    rw [if_pos ⟨h1, h2⟩]
  · intro data key tt rest hk ht
    exact locate_other_error data key tt rest hk ht

/-- Witness for C5_value_encoding at the value 7 and an unsupported-value
request on an empty buffer. -/
theorem C5_value_encoding_witness :
    compute_value (PyValue.int 7) = Except.ok [(7 : Int).toNat] ∧
    locate_and_modify_player_settings [] [("x", ⟨"Y", PyValue.other⟩)] =
      Except.error PyError.typeError :=
  ⟨C5_value_encoding.2.1 7 (by decide) (by decide),
   C5_value_encoding.2.2.2.2.2 [] "x" "Y" [] (by decide) (by decide)⟩

/-- Claim C9: the record is encoded before the found/absent branching, so a
requested setting with an unsupported value shape aborts the whole patch call
with `TypeError` even when its key is already present in the buffer and no
insertion would have been required. -/
theorem C9_encode_precedes_branching (data : List Nat) (key tt : String)
    (rest : List (String × ValueData))
    (hk : (utf8Bytes key ++ [0]).length < 256)
    (ht : (utf8Bytes tt ++ [0]).length < 256)
    (_hfound : bfind data (utf8Bytes key ++ [0]) ≠ -1) :
    locate_and_modify_player_settings data ((key, ⟨tt, PyValue.other⟩) :: rest) =
      Except.error PyError.typeError :=
  locate_other_error data key tt rest hk ht

/-- Witness for C9_encode_precedes_branching with the key 'x' present in the
buffer. -/
theorem C9_encode_precedes_branching_witness :
    locate_and_modify_player_settings (utf8Bytes "x" ++ [0])
        [("x", ⟨"Y", PyValue.other⟩)] = Except.error PyError.typeError :=
  C9_encode_precedes_branching (utf8Bytes "x" ++ [0]) "x" "Y" [] (by decide)
    (by decide) (by decide)

/-- The encoded record for ('bUsingPhysicalGunstock', 'BoolProperty', True),
used as a concrete test vector. -/
def gunstockRecord : SettingBytes :=
  SettingBytes.mk (utf8Bytes "bUsingPhysicalGunstock" ++ [0])
    (utf8Bytes "BoolProperty" ++ [0]) [1]
    ([23, 0, 0, 0] ++ (utf8Bytes "bUsingPhysicalGunstock" ++ [0]) ++ [13, 0, 0, 0] ++
     (utf8Bytes "BoolProperty" ++ [0]) ++ List.replicate 8 0 ++ [1] ++ [0])

/-- The encoded record for ('bFullBodyIK', 'BoolProperty', False), used as a
concrete test vector. -/
def fullBodyRecord : SettingBytes :=
  SettingBytes.mk (utf8Bytes "bFullBodyIK" ++ [0])
    (utf8Bytes "BoolProperty" ++ [0]) [0]
    ([12, 0, 0, 0] ++ (utf8Bytes "bFullBodyIK" ++ [0]) ++ [13, 0, 0, 0] ++
     (utf8Bytes "BoolProperty" ++ [0]) ++ List.replicate 8 0 ++ [0] ++ [0])

/-- The encoded record for ('bogus', 'BoolProperty', True), used as a
concrete test vector for a key outside the defaults table. -/
def bogusRecord : SettingBytes :=
  SettingBytes.mk (utf8Bytes "bogus" ++ [0])
    (utf8Bytes "BoolProperty" ++ [0]) [1]
    ([6, 0, 0, 0] ++ (utf8Bytes "bogus" ++ [0]) ++ [13, 0, 0, 0] ++
     (utf8Bytes "BoolProperty" ++ [0]) ++ List.replicate 8 0 ++ [1] ++ [0])

/-- Claim C2: a requested setting whose null-terminated key is absent from
the buffer and whose value differs from its default makes the patch return a
buffer longer than the input by exactly the encoded record's length, with the
record's bytes appearing at the pre-insertion insertion point: the offset of
the first anchor occurrence plus the anchor's length (terminator included). -/
theorem C2_insert_absent_nondefault (data : List Nat) (key : String) (vd : ValueData)
    (sb : SettingBytes) (dflt : Bool)
    (hanchor : 0 ≤ bfind data data_anchor)
    (habsent : bfind data (utf8Bytes key ++ [0]) = -1)
    (hsb : mkSettingBytes key vd.type vd.value = Except.ok sb)
    (hd : defaultLookup key = Except.ok dflt)
    (hne : pyEq vd.value dflt = false) :
    locate_and_modify_player_settings data [(key, vd)] =
      Except.ok (some (splice data
        ((bfind data data_anchor).toNat + data_anchor.length) sb.bytes)) ∧
    (splice data ((bfind data data_anchor).toNat + data_anchor.length) sb.bytes).length
      = data.length + sb.bytes.length ∧
    ((splice data ((bfind data data_anchor).toNat + data_anchor.length) sb.bytes).drop
        ((bfind data data_anchor).toNat + data_anchor.length)).take sb.bytes.length
      = sb.bytes := by
  have hle := insertion_index_le data hanchor
  refine ⟨?_, splice_length _ _ _, splice_drop_take _ _ _ hle⟩
  simp only [locate_and_modify_player_settings]
  rw [insertion_index_of_found data hanchor]
  rw [patchLoop_insert data _ key vd sb dflt [] data false hsb habsent hd hne]
  rfl

/-- Witness for C2_insert_absent_nondefault: anchor at offset 0, requesting
bUsingPhysicalGunstock = True on a buffer that lacks that key. -/
theorem C2_insert_absent_nondefault_witness :
    locate_and_modify_player_settings (data_anchor ++ [5, 6, 7])
        [("bUsingPhysicalGunstock", ⟨"BoolProperty", PyValue.bool true⟩)] =
      Except.ok (some (splice (data_anchor ++ [5, 6, 7])
        ((bfind (data_anchor ++ [5, 6, 7]) data_anchor).toNat + data_anchor.length)
        gunstockRecord.bytes)) ∧
    (splice (data_anchor ++ [5, 6, 7])
        ((bfind (data_anchor ++ [5, 6, 7]) data_anchor).toNat + data_anchor.length)
        gunstockRecord.bytes).length =
      (data_anchor ++ [5, 6, 7]).length + gunstockRecord.bytes.length ∧
    ((splice (data_anchor ++ [5, 6, 7])
        ((bfind (data_anchor ++ [5, 6, 7]) data_anchor).toNat + data_anchor.length)
        gunstockRecord.bytes).drop
        ((bfind (data_anchor ++ [5, 6, 7]) data_anchor).toNat + data_anchor.length)).take
        gunstockRecord.bytes.length = gunstockRecord.bytes :=
  C2_insert_absent_nondefault (data_anchor ++ [5, 6, 7]) "bUsingPhysicalGunstock"
    ⟨"BoolProperty", PyValue.bool true⟩ gunstockRecord false (by decide) (by decide)
    (by decide) (by decide) (by decide)

/-- Claim C3: a requested setting absent from the buffer whose value equals
its default triggers no insertion, and whenever no requested setting triggers
an insertion the patch returns the None sentinel, never a byte-identical copy
of the input. -/
theorem C3_sentinel_when_no_insert (data : List Nat)
    (settings : List (String × ValueData))
    (h : ∀ p ∈ settings, exceptOk (mkSettingBytes p.1 p.2.type p.2.value) = true ∧
         (bfind data (utf8Bytes p.1 ++ [0]) ≠ -1 ∨ isDefaultValue p.1 p.2.value = true)) :
    locate_and_modify_player_settings data settings = Except.ok none := by
  simp only [locate_and_modify_player_settings]
  rw [patchLoop_noop data _ settings data false h]
  rfl

/-- Witness for C3_sentinel_when_no_insert: requesting the default value
False for the absent key bUsingPhysicalGunstock returns the sentinel. -/
theorem C3_sentinel_when_no_insert_witness :
    locate_and_modify_player_settings (data_anchor ++ [5, 6, 7])
        [("bUsingPhysicalGunstock", ⟨"BoolProperty", PyValue.bool false⟩)] =
      Except.ok none :=
  C3_sentinel_when_no_insert (data_anchor ++ [5, 6, 7])
    [("bUsingPhysicalGunstock", ⟨"BoolProperty", PyValue.bool false⟩)] (by decide)

/-- Claim C4: a requested setting whose null-terminated key already occurs in
the buffer is skipped regardless of the requested value, and when every
requested key is present (and every record encodes) the patch returns the
None sentinel with the buffer untouched. -/
theorem C4_found_key_noop (data : List Nat) (settings : List (String × ValueData))
    (h : ∀ p ∈ settings, exceptOk (mkSettingBytes p.1 p.2.type p.2.value) = true ∧
         bfind data (utf8Bytes p.1 ++ [0]) ≠ -1) :
    locate_and_modify_player_settings data settings = Except.ok none := by
  simp only [locate_and_modify_player_settings]
  rw [patchLoop_noop data _ settings data false
    (fun p hp => ⟨(h p hp).1, Or.inl (h p hp).2⟩)]
  rfl

/-- Witness for C4_found_key_noop: the key bFullBodyIK occurs in the buffer
and a non-default value is requested for it; the sentinel is returned. -/
theorem C4_found_key_noop_witness :
    locate_and_modify_player_settings (utf8Bytes "bFullBodyIK" ++ [0])
        [("bFullBodyIK", ⟨"BoolProperty", PyValue.bool false⟩)] = Except.ok none :=
  C4_found_key_noop (utf8Bytes "bFullBodyIK" ++ [0])
    [("bFullBodyIK", ⟨"BoolProperty", PyValue.bool false⟩)] (by decide)

/-- Claim C6: when the anchor marker is absent from the buffer the patcher
does not fail — the insertion index degenerates to `(-1 + anchorLength)`,
i.e. anchorLength - 1 = 24, and insertions proceed at that fixed offset. -/
theorem C6_anchor_missing (data : List Nat) (key : String) (vd : ValueData)
    (sb : SettingBytes) (dflt : Bool)
    (hanchor : bfind data data_anchor = -1)
    (habsent : bfind data (utf8Bytes key ++ [0]) = -1)
    (hsb : mkSettingBytes key vd.type vd.value = Except.ok sb)
    (hd : defaultLookup key = Except.ok dflt)
    (hne : pyEq vd.value dflt = false) :
    locate_and_modify_player_settings data [(key, vd)] =
      Except.ok (some (splice data (data_anchor.length - 1) sb.bytes)) ∧
    data_anchor.length - 1 = 24 := by
  constructor
  · have hidx : (bfind data data_anchor + (data_anchor.length : Int)).toNat =
        data_anchor.length - 1 := by
      rw [hanchor]
      have h25 : data_anchor.length = 25 := by decide
      rw [h25]
      decide
    simp only [locate_and_modify_player_settings]
    rw [hidx]
    rw [patchLoop_insert data _ key vd sb dflt [] data false hsb habsent hd hne]
    rfl
  · decide

/-- Witness for C6_anchor_missing: patching an empty buffer (no anchor, no
key) still inserts, at offset 24 clamped into the empty buffer. -/
theorem C6_anchor_missing_witness :
    locate_and_modify_player_settings []
        [("bUsingPhysicalGunstock", ⟨"BoolProperty", PyValue.bool true⟩)] =
      Except.ok (some (splice [] (data_anchor.length - 1) gunstockRecord.bytes)) ∧
    data_anchor.length - 1 = 24 :=
  C6_anchor_missing [] "bUsingPhysicalGunstock" ⟨"BoolProperty", PyValue.bool true⟩
    gunstockRecord false (by decide) (by decide) (by decide) (by decide) (by decide)

/-- Claim C7: when one patch call performs two insertions, both records are
spliced at the same fixed anchor-derived offset, so they appear immediately
after the anchor in reverse request-iteration order: the second record
precedes the first. -/
theorem C7_reverse_insertion_order (data : List Nat) (k1 k2 : String)
    (vd1 vd2 : ValueData) (sb1 sb2 : SettingBytes) (d1 d2 : Bool)
    (hanchor : 0 ≤ bfind data data_anchor)
    (h1absent : bfind data (utf8Bytes k1 ++ [0]) = -1)
    (h2absent : bfind data (utf8Bytes k2 ++ [0]) = -1)
    (hsb1 : mkSettingBytes k1 vd1.type vd1.value = Except.ok sb1)
    (hsb2 : mkSettingBytes k2 vd2.type vd2.value = Except.ok sb2)
    (hd1 : defaultLookup k1 = Except.ok d1)
    (hd2 : defaultLookup k2 = Except.ok d2)
    (hne1 : pyEq vd1.value d1 = false)
    (hne2 : pyEq vd2.value d2 = false) :
    locate_and_modify_player_settings data [(k1, vd1), (k2, vd2)] =
      Except.ok (some
        (data.take ((bfind data data_anchor).toNat + data_anchor.length) ++
         sb2.bytes ++ sb1.bytes ++
         data.drop ((bfind data data_anchor).toNat + data_anchor.length))) := by
  have hle := insertion_index_le data hanchor
  simp only [locate_and_modify_player_settings]
  rw [insertion_index_of_found data hanchor]
  rw [patchLoop_insert data _ k1 vd1 sb1 d1 [(k2, vd2)] data false hsb1 h1absent hd1 hne1]
  rw [patchLoop_insert data _ k2 vd2 sb2 d2 []
    (splice data ((bfind data data_anchor).toNat + data_anchor.length) sb1.bytes) true
    hsb2 h2absent hd2 hne2]
  rw [splice_splice data sb1.bytes sb2.bytes _ hle]
  rfl

/-- Witness for C7_reverse_insertion_order: requesting gunstock then full-body
on an anchored buffer lacking both keys puts the full-body record first. -/
theorem C7_reverse_insertion_order_witness :
    locate_and_modify_player_settings (data_anchor ++ [9])
        [("bUsingPhysicalGunstock", ⟨"BoolProperty", PyValue.bool true⟩),
         ("bFullBodyIK", ⟨"BoolProperty", PyValue.bool false⟩)] =
      Except.ok (some
        ((data_anchor ++ [9]).take
          ((bfind (data_anchor ++ [9]) data_anchor).toNat + data_anchor.length) ++
         fullBodyRecord.bytes ++ gunstockRecord.bytes ++
         (data_anchor ++ [9]).drop
          ((bfind (data_anchor ++ [9]) data_anchor).toNat + data_anchor.length))) :=
  C7_reverse_insertion_order (data_anchor ++ [9]) "bUsingPhysicalGunstock" "bFullBodyIK"
    ⟨"BoolProperty", PyValue.bool true⟩ ⟨"BoolProperty", PyValue.bool false⟩
    gunstockRecord fullBodyRecord false true (by decide) (by decide) (by decide)
    (by decide) (by decide) (by decide) (by decide) (by decide) (by decide)

/-- Claim C10: a requested setting name outside the defaults table raises an
uncaught KeyError exactly when its null-terminated key bytes are absent from
the buffer; when the key bytes are present the table is never consulted and
the call completes without fault. -/
theorem C10_unknown_key (data : List Nat) (key : String) (vd : ValueData)
    (sb : SettingBytes)
    (hnotin : defaultLookup key = Except.error (PyError.keyError key))
    (hsb : mkSettingBytes key vd.type vd.value = Except.ok sb) :
    (bfind data (utf8Bytes key ++ [0]) = -1 →
       locate_and_modify_player_settings data [(key, vd)] =
         Except.error (PyError.keyError key)) ∧
    (bfind data (utf8Bytes key ++ [0]) ≠ -1 →
       locate_and_modify_player_settings data [(key, vd)] = Except.ok none) := by
  constructor
  · intro habsent
    simp only [locate_and_modify_player_settings]
    rw [patchLoop_keyError data _ key vd sb [] data false (PyError.keyError key)
      hsb habsent hnotin]
  · intro hfound
    simp only [locate_and_modify_player_settings]
    rw [patchLoop_found data _ key vd sb [] data false hsb hfound]
    rfl

/-- Witness for C10_unknown_key: the unknown key 'bogus' faults on an empty
buffer and completes without fault on a buffer containing its bytes. -/
theorem C10_unknown_key_witness :
    locate_and_modify_player_settings [] [("bogus", ⟨"BoolProperty", PyValue.bool true⟩)] =
      Except.error (PyError.keyError "bogus") ∧
    locate_and_modify_player_settings (utf8Bytes "bogus" ++ [0])
        [("bogus", ⟨"BoolProperty", PyValue.bool true⟩)] = Except.ok none :=
  ⟨(C10_unknown_key [] "bogus" ⟨"BoolProperty", PyValue.bool true⟩ bogusRecord
      (by decide) (by decide)).1 (by decide),
   (C10_unknown_key (utf8Bytes "bogus" ++ [0]) "bogus"
      ⟨"BoolProperty", PyValue.bool true⟩ bogusRecord
      (by decide) (by decide)).2 (by decide)⟩
